import Mathlib

/-!
Verification of `app/mt5_handler.py` (class `MT5Handler`).

The module is a synchronous adapter over the MetaTrader 5 SDK.  We embed it
shallowly: the SDK boundary (`mt5.terminal_info`, `mt5.positions_get`,
`mt5.symbol_info`, `mt5.symbol_info_tick`, `mt5.order_send`, ...) becomes an
explicit environment `MT5Env`, Python floats become exact rationals `ℚ`, the
result dictionaries become structures with `Option` fields for keys that are
present only on some paths, and a Python exception escaping a method is an
`Except.error`.  Side effects that the claims talk about (the settlement
sleep, the suffix resolution, each order submission and each per-position
close call) are recorded in an event trace returned next to the result.
-/

namespace MT5Spec

/-- Python `s.endswith(post)`, on the character sequence of the string. -/
def py_endswith (s post : String) : Bool :=
  post.data.isSuffixOf s.data

/-- Python `s.upper()`: uppercase each character. -/
def py_upper (s : String) : String :=
  String.mk (s.data.map Char.toUpper)

/-- Python `s[:-n]` for `n > 0`: drop the last `n` characters. -/
def py_drop_right (s : String) (n : Nat) : String :=
  String.mk (s.data.take (s.data.length - n))

-- Constants of the MetaTrader 5 SDK used by the handler.
def ORDER_TYPE_BUY : Nat := 0
def ORDER_TYPE_SELL : Nat := 1
def TRADE_ACTION_DEAL : Nat := 1
def ORDER_TIME_GTC : Nat := 0
def ORDER_FILLING_IOC : Nat := 1
def TRADE_RETCODE_DONE : Nat := 10009

/-- A quote returned by `mt5.symbol_info_tick`. -/
structure Tick where
  bid : ℚ
  ask : ℚ
deriving DecidableEq, Repr

/-- An open position as reported by `mt5.positions_get`. -/
structure Position where
  ticket : Nat
  symbol : String
  type : Nat
  volume : ℚ
deriving DecidableEq, Repr

/-- The part of `mt5.symbol_info` the handler reads. -/
structure SymbolInfo where
  visible : Bool
deriving DecidableEq, Repr

/-- The request dictionary built for `mt5.order_send` (lines 269-280 and
390-402 of the source).  `position` is `some` only for close requests. -/
structure OrderRequest where
  action : Nat
  position : Option Nat
  symbol : String
  volume : ℚ
  type : Nat
  price : ℚ
  deviation : Nat
  magic : Nat
  comment : String
  type_time : Nat
  type_filling : Nat
deriving DecidableEq, Repr

/-- The part of the `mt5.order_send` result record the handler reads; the
full record (`result._asdict()`) is what gets attached as `details`. -/
structure OrderResult where
  retcode : Nat
deriving DecidableEq, Repr

/-- A Python exception escaping a method of the handler. -/
inductive PyErr where
  | attributeError : String → PyErr
deriving DecidableEq, Repr

/-- The MetaTrader 5 terminal as seen through the SDK calls the handler
makes.  `terminal_info` is the truthiness of `mt5.terminal_info()`;
`init_ok` is whether `initialize_mt5` (initialize + login) would succeed
when `check_connection` retries it. -/
structure MT5Env where
  terminal_info : Bool
  init_ok : Bool
  positions : List Position
  symbol_info : String → Option SymbolInfo
  symbol_select : String → Bool
  symbol_info_tick : String → Option Tick
  order_send : OrderRequest → Option OrderResult
  last_error : Int

/-- Mutable attributes of the `MT5Handler` instance that the embedded
operations read. -/
structure HandlerState where
  connected : Bool
  volume_column : Option String

/-- Observable side effects, in program order. -/
inductive Event where
  | evCloseAll : Option String → Event
  | evSleep : Nat → Event
  | evResolve : String → String → Event
  | evClosePos : Nat → Option ℚ → Event
  | evOrderSend : OrderRequest → Event
deriving DecidableEq, Repr

/-- The result dictionary of `place_trade` and `close_position`.  Optional
fields model dictionary keys that are present only on some paths. -/
structure TradeResult where
  success : Bool
  message : String
  details : Option OrderResult := none
  volume_closed : Option ℚ := none
deriving DecidableEq, Repr

/-- The result dictionary of `close_all_positions`. -/
structure CloseAllResult where
  success : Bool
  message : String
  closed_count : Option Nat := none
  failed_count : Option Nat := none
  total_volume_closed : Option ℚ := none
  details : Option (List TradeResult) := none
deriving DecidableEq, Repr

/-- `mt5.positions_get()` / `mt5.positions_get(symbol=s)`. -/
def positions_get (env : MT5Env) : Option String → List Position
  | none => env.positions
  | some s => env.positions.filter (fun p => p.symbol == s)

/-- `mt5.positions_get(ticket=t)`. -/
def positions_get_ticket (env : MT5Env) (ticket : Nat) : List Position :=
  env.positions.filter (fun p => p.ticket == ticket)

/-- `check_connection` (lines 111-117): if the session is gone, a single
reconnect attempt (`initialize_mt5`) decides the outcome. -/
def check_connection (env : MT5Env) (st : HandlerState) : Bool :=
  if !st.connected || !env.terminal_info then env.init_ok else true

/-- `_check_data_columns` (lines 66-109): the probe of a reference symbol.
Any exception during the probe is caught and downgraded (lines 107-109),
leaving `volume_column = None`. -/
def check_data_columns (probe : Except PyErr (Option String)) : Option String :=
  match probe with
  | Except.ok c => c
  | Except.error _ => none

/-- A position dictionary as returned by `get_positions` (lines 338-349):
the broker suffix is stripped from `symbol`; when that happened the
original broker-qualified name is kept in `broker_symbol`. -/
structure PositionDict where
  ticket : Nat
  symbol : String
  type : Nat
  volume : ℚ
  broker_symbol : Option String := none
deriving DecidableEq, Repr

/-- Suffix resolution shared by `place_trade` (lines 223-228) and
`get_positions` (lines 327-333): append the configured broker suffix when
it is configured (non-empty) and the symbol does not already end in it. -/
def resolve_symbol (suffix symbol : String) : String :=
  if suffix ≠ "" ∧ py_endswith symbol suffix = false then symbol ++ suffix else symbol

/-- Conversion of one position record in `get_positions` (lines 340-349):
strip the broker suffix from the reported symbol, keeping the original
broker symbol in `broker_symbol`. -/
def to_position_dict (suffix : String) (p : Position) : PositionDict :=
  if suffix ≠ "" ∧ py_endswith p.symbol suffix = true then
    { ticket := p.ticket, symbol := py_drop_right p.symbol suffix.length,
      type := p.type, volume := p.volume, broker_symbol := some p.symbol }
  else
    { ticket := p.ticket, symbol := p.symbol, type := p.type, volume := p.volume,
      broker_symbol := none }

/-- `get_positions` (lines 314-351). -/
def get_positions (env : MT5Env) (st : HandlerState) (suffix : String)
    (symbol : Option String) : List PositionDict :=
  if check_connection env st = false then []
  else
    let raw :=
      match symbol with
      | some s => positions_get env (some (resolve_symbol suffix s))
      | none => positions_get env none
    raw.map (to_position_dict suffix)

/-- The request dictionary of `close_position` (lines 390-402). -/
def close_request (position_id : Nat) (position_symbol : String) (volume : ℚ)
    (ctype : Nat) (price : ℚ) : OrderRequest :=
  { action := TRADE_ACTION_DEAL, position := some position_id, symbol := position_symbol,
    volume := volume, type := ctype, price := price, deviation := 30, magic := 234000,
    comment := "Close position", type_time := ORDER_TIME_GTC,
    type_filling := ORDER_FILLING_IOC }

/-- Line 386: the closing order type is the inverse of the position type. -/
def close_type_of (ptype : Nat) : Nat :=
  if ptype == ORDER_TYPE_BUY then ORDER_TYPE_SELL else ORDER_TYPE_BUY

/-- Line 387: bid closes a long, ask closes a short. -/
def close_price_of (ptype : Nat) (tick : Tick) : ℚ :=
  if ptype == ORDER_TYPE_BUY then tick.bid else tick.ask

/-- The `AttributeError` message raised by line 387 when
`mt5.symbol_info_tick` returns `None`. -/
def attr_err_msg : String :=
  "NoneType object has no attribute bid"

/-- Lines 375-381: the volume to close is the full position volume when no
volume was given, else `min(close_volume, position.volume)`. -/
def volume_to_close_of (close_volume : Option ℚ) (position : Position) : ℚ :=
  match close_volume with
  | none => position.volume
  | some v => min v position.volume

/-- The closing request of `close_position` for a given position and tick. -/
def close_request_of (position_id : Nat) (position : Position) (close_volume : Option ℚ)
    (tick : Tick) : OrderRequest :=
  close_request position_id position.symbol (volume_to_close_of close_volume position)
    (close_type_of position.type) (close_price_of position.type tick)

/-- `close_position` after the ticket lookup succeeded (lines 372-433).
Line 387 dereferences `mt5.symbol_info_tick(position_symbol)` with no
`None` check, so a missing tick raises `AttributeError`. -/
def close_after_lookup (env : MT5Env) (position_id : Nat) (position : Position)
    (close_volume : Option ℚ) : Except PyErr (TradeResult × List Event) :=
  match env.symbol_info_tick position.symbol with
  | none =>
    Except.error (PyErr.attributeError attr_err_msg)
  | some tick =>
    match env.order_send (close_request_of position_id position close_volume tick) with
    | none =>
      Except.ok ({ success := false,
                   message := "Close position failed. Error: " ++ toString env.last_error },
                 [Event.evOrderSend (close_request_of position_id position close_volume tick)])
    | some result =>
      if result.retcode ≠ TRADE_RETCODE_DONE then
        Except.ok ({ success := false,
                     message := "Close position failed. Error code: " ++ toString result.retcode,
                     details := some result },
                   [Event.evOrderSend (close_request_of position_id position close_volume tick)])
      else
        Except.ok ({ success := true,
                     message := "Position " ++ toString position_id ++ " closed (Volume: "
                       ++ toString (volume_to_close_of close_volume position) ++ ")",
                     details := some result,
                     volume_closed := some (volume_to_close_of close_volume position) },
                   [Event.evOrderSend (close_request_of position_id position close_volume tick)])

/-- `close_position` (lines 353-433). -/
def close_position (env : MT5Env) (st : HandlerState) (position_id : Nat)
    (close_volume : Option ℚ) : Except PyErr (TradeResult × List Event) :=
  if check_connection env st = false then
    Except.ok ({ success := false, message := "MT5 connection failed" }, [])
  else
    match positions_get_ticket env position_id with
    | [] =>
      Except.ok ({ success := false,
                   message := "Position " ++ toString position_id ++ " not found" }, [])
    | position :: _ => close_after_lookup env position_id position close_volume

/-- The `for position in positions` loop of `close_all_positions`
(lines 169-177), as structural recursion over the position list.  Returns
(closed_count, failed_count, results, total_volume_closed, trace). -/
def close_loop (env : MT5Env) (st : HandlerState) (vol : Option ℚ) :
    List PositionDict → Except PyErr (Nat × Nat × List TradeResult × ℚ × List Event)
  | [] => Except.ok (0, 0, [], 0, [])
  | p :: rest =>
    match close_position env st p.ticket vol with
    | Except.error e => Except.error e
    | Except.ok (result, ctr) =>
      match close_loop env st vol rest with
      | Except.error e => Except.error e
      | Except.ok (c, f, rs, tv, tr) =>
        if result.success then
          Except.ok (c + 1, f, result :: rs, result.volume_closed.getD 0 + tv,
            (Event.evClosePos p.ticket vol :: ctr) ++ tr)
        else
          Except.ok (c, f + 1, result :: rs, tv,
            (Event.evClosePos p.ticket vol :: ctr) ++ tr)

/-- Lines 161-167: when a total volume is given and more than one position
matches, the volume argument passed to each close call is the even share
`close_volume / n`; otherwise `close_volume` is passed unchanged. -/
def volume_per_position_of (close_volume : Option ℚ) (n : Nat) : Option ℚ :=
  match close_volume with
  | some v => if n > 1 then some (v / (n : ℚ)) else some v
  | none => none

/-- `close_all_positions` (lines 138-188). -/
def close_all_positions (env : MT5Env) (st : HandlerState) (suffix : String)
    (symbol : Option String) (close_volume : Option ℚ) :
    Except PyErr (CloseAllResult × List Event) :=
  if check_connection env st = false then
    Except.ok ({ success := false, message := "MT5 connection failed" }, [])
  else
    let positions := get_positions env st suffix symbol
    match positions with
    | [] =>
      Except.ok ({ success := true, message := "No positions to close",
                   closed_count := some 0 }, [])
    | _ :: _ =>
      match close_loop env st (volume_per_position_of close_volume positions.length) positions with
      | Except.error e => Except.error e
      | Except.ok (closed_count, failed_count, results, total_volume_closed, tr) =>
        Except.ok ({ success := failed_count == 0,
                     message := "Closed " ++ toString closed_count ++ " positions, "
                       ++ toString failed_count ++ " failed",
                     closed_count := some closed_count,
                     failed_count := some failed_count,
                     total_volume_closed := some total_volume_closed,
                     details := some results }, tr)

/-- The request dictionary of `place_trade` (lines 269-280). -/
def place_request (mt5_symbol : String) (volume : ℚ) (mt5_order_type : Nat)
    (price : ℚ) (comment : String) : OrderRequest :=
  { action := TRADE_ACTION_DEAL, position := none, symbol := mt5_symbol,
    volume := volume, type := mt5_order_type, price := price, deviation := 30,
    magic := 234000, comment := comment, type_time := ORDER_TIME_GTC,
    type_filling := ORDER_FILLING_IOC }

/-- Lines 258-266: order type and price from the direction string;
BUY/LONG buys at ask, SELL/SHORT sells at bid, anything else is invalid. -/
def order_type_price (order_type : String) (tick : Tick) : Option (Nat × ℚ) :=
  if py_upper order_type = "BUY" ∨ py_upper order_type = "LONG" then
    some (ORDER_TYPE_BUY, tick.ask)
  else if py_upper order_type = "SELL" ∨ py_upper order_type = "SHORT" then
    some (ORDER_TYPE_SELL, tick.bid)
  else none

/-- `place_trade` from the suffix-resolved symbol on (lines 232-312). -/
def place_after_resolve (env : MT5Env) (mt5_symbol order_type : String) (volume : ℚ)
    (comment symbol : String) : TradeResult × List Event :=
  match env.symbol_info mt5_symbol with
  | none =>
    ({ success := false, message := "Symbol " ++ mt5_symbol ++ " not found" }, [])
  | some symbol_info =>
    if symbol_info.visible = false ∧ env.symbol_select mt5_symbol = false then
      ({ success := false, message := "Failed to select symbol " ++ mt5_symbol }, [])
    else
      match env.symbol_info_tick mt5_symbol with
      | none =>
        ({ success := false, message := "Failed to get market data for " ++ mt5_symbol }, [])
      | some tick =>
        match order_type_price order_type tick with
        | none =>
          ({ success := false, message := "Invalid order type: " ++ order_type }, [])
        | some (mt5_order_type, current_price) =>
          match env.order_send (place_request mt5_symbol volume mt5_order_type current_price comment) with
          | none =>
            ({ success := false,
               message := "Order failed. Error: " ++ toString env.last_error },
             [Event.evOrderSend (place_request mt5_symbol volume mt5_order_type current_price comment)])
          | some result =>
            if result.retcode ≠ TRADE_RETCODE_DONE then
              ({ success := false,
                 message := "Order failed. Error code: " ++ toString result.retcode,
                 details := some result },
               [Event.evOrderSend (place_request mt5_symbol volume mt5_order_type current_price comment)])
            else
              ({ success := true,
                 message := "Order executed: " ++ order_type ++ " " ++ symbol,
                 details := some result },
               [Event.evOrderSend (place_request mt5_symbol volume mt5_order_type current_price comment)])

/-- `place_trade` (lines 190-312).  With `close_existing` set it first runs
`close_all_positions(symbol)` and sleeps 500 ms (lines 212-221), then
resolves the suffix and proceeds; the close outcome is only logged. -/
def place_trade (env : MT5Env) (st : HandlerState) (suffix : String) (symbol : String)
    (order_type : String) (volume : ℚ) (comment : String) (close_existing : Bool) :
    Except PyErr (TradeResult × List Event) :=
  if check_connection env st = false then
    Except.ok ({ success := false, message := "MT5 connection failed" }, [])
  else
    match (if close_existing then
             match close_all_positions env st suffix (some symbol) none with
             | Except.error e => Except.error e
             | Except.ok (_, ctr) =>
               Except.ok (Event.evCloseAll (some symbol) :: (ctr ++ [Event.evSleep 500]))
           else Except.ok ([] : List Event)) with
    | Except.error e => Except.error e
    | Except.ok pre =>
      let mt5_symbol := resolve_symbol suffix symbol
      let tail := place_after_resolve env mt5_symbol order_type volume comment symbol
      Except.ok (tail.1, pre ++ (Event.evResolve symbol mt5_symbol :: tail.2))

/-- The close-position invocations recorded in a trace: ticket and the
volume argument passed to `close_position`. -/
def closeCalls : List Event → List (Nat × Option ℚ)
  | [] => []
  | Event.evClosePos t v :: rest => (t, v) :: closeCalls rest
  | _ :: rest => closeCalls rest

/-- Events that the close-all step of `place_trade` can emit. -/
def isCloseEvent : Event → Bool
  | Event.evClosePos _ _ => true
  | Event.evOrderSend _ => true
  | _ => false

-- Concrete data used to instantiate the theorems below.

def symEUR : String := "EURUSD"

def sfxR : String := ".r"

def no_suffix : String := ""

def sBUY : String := "BUY"

def st0 : HandlerState := { connected := true, volume_column := none }

/-- A healthy terminal: two open EURUSD positions, full market data, every
submission filled. -/
def envW : MT5Env :=
  { terminal_info := true, init_ok := true,
    positions := [{ ticket := 1, symbol := symEUR, type := ORDER_TYPE_BUY, volume := 1 },
                  { ticket := 2, symbol := symEUR, type := ORDER_TYPE_SELL, volume := 1 }],
    symbol_info := fun _ => some { visible := true },
    symbol_select := fun _ => true,
    symbol_info_tick := fun _ => some { bid := 2, ask := 3 },
    order_send := fun _ => some { retcode := TRADE_RETCODE_DONE },
    last_error := 0 }

/-- A terminal where the close of ticket 1 fills but the close of ticket 2
is rejected by the broker (retcode 10013). -/
def envPartial : MT5Env :=
  { terminal_info := true, init_ok := true,
    positions := [{ ticket := 1, symbol := symEUR, type := ORDER_TYPE_BUY, volume := 1 },
                  { ticket := 2, symbol := symEUR, type := ORDER_TYPE_BUY, volume := 1 }],
    symbol_info := fun _ => some { visible := true },
    symbol_select := fun _ => true,
    symbol_info_tick := fun _ => some { bid := 2, ask := 3 },
    order_send := fun req =>
      if req.position == some 1 then some { retcode := TRADE_RETCODE_DONE }
      else some { retcode := 10013 },
    last_error := 0 }

/-- A terminal with an open position but no market data: `symbol_info_tick`
returns `None` for every symbol. -/
def envNoTick : MT5Env :=
  { terminal_info := true, init_ok := true,
    positions := [{ ticket := 7, symbol := symEUR, type := ORDER_TYPE_BUY, volume := 1 }],
    symbol_info := fun _ => none,
    symbol_select := fun _ => false,
    symbol_info_tick := fun _ => none,
    order_send := fun _ => none,
    last_error := -1 }

-- Helper lemmas.

theorem str_append_ne_empty (s t : String) (h : s ≠ "") : s ++ t ≠ "" := by
  intro heq
  apply h
  have hd : s.data ++ t.data = [] := by
    have := congrArg String.data heq
    simpa [String.data_append] using this
  have hs : s.data = [] := (List.append_eq_nil.mp hd).1
  cases s
  simp_all

theorem py_endswith_append (a b : String) : py_endswith (a ++ b) b = true := by
  simp [py_endswith, String.data_append, List.isSuffixOf]

theorem py_drop_right_append (a b : String) : py_drop_right (a ++ b) b.length = a := by
  simp only [py_drop_right, String.data_append, String.length, List.length_append,
    Nat.add_sub_cancel]
  rw [List.take_left]

theorem closeCalls_append (a b : List Event) :
    closeCalls (a ++ b) = closeCalls a ++ closeCalls b := by
  induction a with
  | nil => simp [closeCalls]
  | cons e rest ih =>
    cases e <;> simp [closeCalls, ih]

theorem close_position_trace (env : MT5Env) (st : HandlerState) (position_id : Nat)
    (close_volume : Option ℚ) (r : TradeResult) (tr : List Event)
    (h : close_position env st position_id close_volume = Except.ok (r, tr)) :
    tr = [] ∨ ∃ q, tr = [Event.evOrderSend q] := by
  unfold close_position close_after_lookup at h
  repeat' split at h
  all_goals try simp_all
  all_goals (rw [← h.2]; exact Or.inr ⟨_, rfl⟩)

theorem closeCalls_close_position (env : MT5Env) (st : HandlerState) (position_id : Nat)
    (close_volume : Option ℚ) (r : TradeResult) (tr : List Event)
    (h : close_position env st position_id close_volume = Except.ok (r, tr)) :
    closeCalls tr = [] := by
  rcases close_position_trace env st position_id close_volume r tr h with h1 | ⟨q, h1⟩ <;>
    simp [h1, closeCalls]

theorem close_position_events (env : MT5Env) (st : HandlerState) (position_id : Nat)
    (close_volume : Option ℚ) (r : TradeResult) (tr : List Event)
    (h : close_position env st position_id close_volume = Except.ok (r, tr)) :
    ∀ e ∈ tr, isCloseEvent e = true := by
  rcases close_position_trace env st position_id close_volume r tr h with h1 | ⟨q, h1⟩ <;>
    simp [h1, isCloseEvent]

theorem close_loop_spec (env : MT5Env) (st : HandlerState) (vol : Option ℚ) :
    ∀ (ps : List PositionDict) (c f : Nat) (rs : List TradeResult) (tv : ℚ) (tr : List Event),
      close_loop env st vol ps = Except.ok (c, f, rs, tv, tr) →
      rs.length = ps.length ∧
      c = rs.countP (fun x => x.success) ∧
      f = rs.countP (fun x => !x.success) ∧
      tv = ((rs.filter (fun x => x.success)).map (fun x => x.volume_closed.getD 0)).sum ∧
      closeCalls tr = ps.map (fun p => (p.ticket, vol)) ∧
      (∀ e ∈ tr, isCloseEvent e = true) := by
  intro ps
  induction ps with
  | nil =>
    intro c f rs tv tr h
    simp only [close_loop, Except.ok.injEq, Prod.mk.injEq] at h
    obtain ⟨hc, hf, hrs, htv, htr⟩ := h
    subst hc; subst hf; subst hrs; subst htv; subst htr
    simp [closeCalls]
  | cons p rest ih =>
    intro c f rs tv tr h
    rcases hcp : close_position env st p.ticket vol with e | pr
    · simp only [close_loop, hcp] at h
      exact Except.noConfusion h
    · obtain ⟨result, ctr⟩ := pr
      rcases hrec : close_loop env st vol rest with e | out
      · simp only [close_loop, hcp, hrec] at h
        exact Except.noConfusion h
      · obtain ⟨c1, f1, rs1, tv1, tr1⟩ := out
        simp only [close_loop, hcp, hrec] at h
        obtain ⟨hlen, hc1, hf1, htv1, hcalls, hev⟩ := ih c1 f1 rs1 tv1 tr1 hrec
        have hctr : closeCalls ctr = [] :=
          closeCalls_close_position env st p.ticket vol result ctr hcp
        have hctrev : ∀ e ∈ ctr, isCloseEvent e = true :=
          close_position_events env st p.ticket vol result ctr hcp
        by_cases hs : result.success = true
        · simp only [hs, if_true, Except.ok.injEq, Prod.mk.injEq] at h
          obtain ⟨hc, hf, hrs, htv, htr⟩ := h
          subst hc; subst hf; subst hrs; subst htv; subst htr
          refine ⟨by simp [hlen], ?_, ?_, ?_, ?_, ?_⟩
          · simp [List.countP_cons, hs, hc1]
          · simp [List.countP_cons, hs, hf1]
          · simp [List.filter_cons, hs, htv1]
          · simp only [List.cons_append, List.append_eq, closeCalls, closeCalls_append,
              hctr, hcalls, List.nil_append, List.map_cons]
          · intro e he
            simp only [List.cons_append, List.append_eq, List.mem_cons, List.mem_append] at he
            rcases he with h3 | h4 | h2
            · subst h3; rfl
            · exact hctrev e h4
            · exact hev e h2
        · simp only [hs, if_false, Bool.false_eq_true, Except.ok.injEq, Prod.mk.injEq] at h
          obtain ⟨hc, hf, hrs, htv, htr⟩ := h
          subst hc; subst hf; subst hrs; subst htv; subst htr
          refine ⟨by simp [hlen], ?_, ?_, ?_, ?_, ?_⟩
          · simp [List.countP_cons, hs, hc1]
          · simp [List.countP_cons, hs, hf1]
          · simp [List.filter_cons, hs, htv1]
          · simp only [List.cons_append, List.append_eq, closeCalls, closeCalls_append,
              hctr, hcalls, List.nil_append, List.map_cons]
          · intro e he
            simp only [List.cons_append, List.append_eq, List.mem_cons, List.mem_append] at he
            rcases he with h3 | h4 | h2
            · subst h3; rfl
            · exact hctrev e h4
            · exact hev e h2

theorem place_after_resolve_events (env : MT5Env) (mt5_symbol order_type : String)
    (volume : ℚ) (comment symbol : String) :
    ∀ e ∈ (place_after_resolve env mt5_symbol order_type volume comment symbol).2,
      ∃ q, e = Event.evOrderSend q ∧ q.symbol = mt5_symbol := by
  unfold place_after_resolve
  repeat' split
  all_goals intro e he
  all_goals simp only [List.mem_singleton, List.not_mem_nil] at he
  all_goals first
  | exact absurd he (by simp)
  | (subst he; exact ⟨_, rfl, rfl⟩)

theorem place_trade_false_eq (env : MT5Env) (st : HandlerState)
    (suffix symbol order_type : String) (volume : ℚ) (comment : String)
    (hconn : check_connection env st = true) :
    place_trade env st suffix symbol order_type volume comment false =
      Except.ok
        ((place_after_resolve env (resolve_symbol suffix symbol) order_type volume comment symbol).1,
          Event.evResolve symbol (resolve_symbol suffix symbol) ::
            (place_after_resolve env (resolve_symbol suffix symbol) order_type volume comment symbol).2) := by
  simp [place_trade, hconn]

theorem place_trade_true_eq (env : MT5Env) (st : HandlerState)
    (suffix symbol order_type : String) (volume : ℚ) (comment : String)
    (cr : CloseAllResult) (ctr : List Event)
    (hconn : check_connection env st = true)
    (hclose : close_all_positions env st suffix (some symbol) none = Except.ok (cr, ctr)) :
    place_trade env st suffix symbol order_type volume comment true =
      Except.ok
        ((place_after_resolve env (resolve_symbol suffix symbol) order_type volume comment symbol).1,
          Event.evCloseAll (some symbol) ::
            (ctr ++ Event.evSleep 500 ::
              Event.evResolve symbol (resolve_symbol suffix symbol) ::
                (place_after_resolve env (resolve_symbol suffix symbol) order_type volume comment symbol).2)) := by
  simp [place_trade, hconn, hclose]

theorem get_positions_conn_false (env : MT5Env) (st : HandlerState) (suffix : String)
    (symbol : Option String) (h : check_connection env st = false) :
    get_positions env st suffix symbol = [] := by
  simp [get_positions, h]

theorem close_all_ok_main (env : MT5Env) (st : HandlerState) (suffix : String)
    (symbol : Option String) (close_volume : Option ℚ) (r : CloseAllResult) (tr : List Event)
    (p0 : PositionDict) (ps0 : List PositionDict)
    (hconn : check_connection env st = true)
    (hps : get_positions env st suffix symbol = p0 :: ps0)
    (hok : close_all_positions env st suffix symbol close_volume = Except.ok (r, tr)) :
    ∃ c f rs tv,
      close_loop env st (volume_per_position_of close_volume (p0 :: ps0).length)
          (p0 :: ps0) = Except.ok (c, f, rs, tv, tr) ∧
      r = { success := f == 0,
            message := "Closed " ++ toString c ++ " positions, " ++ toString f ++ " failed",
            closed_count := some c, failed_count := some f,
            total_volume_closed := some tv, details := some rs } := by
  simp only [close_all_positions, hconn, Bool.true_eq_false, if_false, hps] at hok
  split at hok
  · exact Except.noConfusion hok
  next c f rs tv tr1 heq =>
    simp only [Except.ok.injEq, Prod.mk.injEq] at hok
    obtain ⟨hr, htr⟩ := hok
    subst htr
    exact ⟨c, f, rs, tv, heq, hr.symm⟩

theorem countP_add_countP_not {α : Type} (p : α → Bool) (l : List α) :
    l.countP p + l.countP (fun x => !p x) = l.length := by
  induction l with
  | nil => simp
  | cons a l ih => by_cases h : p a <;> simp [List.countP_cons, h, ← ih] <;> ring

/-- Claim C1: a `close_all_positions` call with a total `close_volume = V`
over `N > 1` matching positions issues exactly `N` close calls, one per
matching position in order, each passing volume `V / N` (the equal split),
and the per-call requested volumes sum to `V`. -/
theorem C1_close_volume_equal_split (env : MT5Env) (st : HandlerState) (suffix : String)
    (symbol : Option String) (V : ℚ) (r : CloseAllResult) (tr : List Event)
    (hok : close_all_positions env st suffix symbol (some V) = Except.ok (r, tr))
    (hN : 1 < (get_positions env st suffix symbol).length) :
    (closeCalls tr).length = (get_positions env st suffix symbol).length ∧
    closeCalls tr = (get_positions env st suffix symbol).map
      (fun p => (p.ticket, some (V / ((get_positions env st suffix symbol).length : ℚ)))) ∧
    (∀ call ∈ closeCalls tr,
      call.2 = some (V / ((get_positions env st suffix symbol).length : ℚ))) ∧
    ((closeCalls tr).map (fun call => call.2.getD 0)).sum = V := by
  cases hcc : check_connection env st with
  | false =>
    rw [get_positions_conn_false env st suffix symbol hcc] at hN
    simp at hN
  | true =>
    rcases hps : get_positions env st suffix symbol with _ | ⟨p0, ps0⟩
    · rw [hps] at hN; simp at hN
    · obtain ⟨c, f, rs, tv, hcl, hr⟩ :=
        close_all_ok_main env st suffix symbol (some V) r tr p0 ps0 hcc hps hok
      obtain ⟨hlen, hc, hf, htv, hcalls, hev⟩ :=
        close_loop_spec env st _ (p0 :: ps0) c f rs tv tr hcl
      have hvpp : volume_per_position_of (some V) (p0 :: ps0).length
          = some (V / ((p0 :: ps0).length : ℚ)) := by
        simp only [volume_per_position_of]
        rw [if_pos (hps ▸ hN)]
      rw [hvpp] at hcalls
      have hlen0 : (((p0 :: ps0).length : ℚ)) ≠ 0 := Nat.cast_ne_zero.mpr (by simp)
      refine ⟨by rw [hcalls]; simp, hcalls, ?_, ?_⟩
      · intro call hcall
        rw [hcalls] at hcall
        obtain ⟨p, hp, hpc⟩ := List.mem_map.mp hcall
        simp [← hpc]
      · rw [hcalls, List.map_map]
        have hcomp : ((fun call => Option.getD call.2 0) ∘
            fun p : PositionDict => ((p.ticket, some (V / ((p0 :: ps0).length : ℚ))) : Nat × Option ℚ))
            = fun _ => V / ((p0 :: ps0).length : ℚ) := by
          funext p; rfl
        rw [hcomp, List.map_const', List.sum_replicate, nsmul_eq_mul]
        field_simp

/-- Claim C2: when `close_all_positions` finds at least one matching
position, the result always carries the per-position detail records, one
per matched position; `success` is true iff every individual close
succeeded; `closed_count + failed_count` equals the number of matched
positions; and `total_volume_closed` is the sum of `volume_closed` over
the successful closes. -/
theorem C2_close_all_aggregates (env : MT5Env) (st : HandlerState) (suffix : String)
    (symbol : Option String) (close_volume : Option ℚ) (r : CloseAllResult) (tr : List Event)
    (hok : close_all_positions env st suffix symbol close_volume = Except.ok (r, tr))
    (hne : get_positions env st suffix symbol ≠ []) :
    ∃ results : List TradeResult,
      r.details = some results ∧
      results.length = (get_positions env st suffix symbol).length ∧
      (r.success = true ↔ ∀ x ∈ results, x.success = true) ∧
      (∃ c f, r.closed_count = some c ∧ r.failed_count = some f ∧
        c + f = (get_positions env st suffix symbol).length) ∧
      r.total_volume_closed =
        some (((results.filter (fun x => x.success)).map
          (fun x => x.volume_closed.getD 0)).sum) := by
  cases hcc : check_connection env st with
  | false => exact absurd (get_positions_conn_false env st suffix symbol hcc) hne
  | true =>
    rcases hps : get_positions env st suffix symbol with _ | ⟨p0, ps0⟩
    · exact absurd hps hne
    · obtain ⟨c, f, rs, tv, hcl, hr⟩ :=
        close_all_ok_main env st suffix symbol close_volume r tr p0 ps0 hcc hps hok
      obtain ⟨hlen, hc, hf, htv, hcalls, hev⟩ :=
        close_loop_spec env st _ (p0 :: ps0) c f rs tv tr hcl
      subst hr
      refine ⟨rs, rfl, hlen, ?_, ⟨c, f, rfl, rfl, ?_⟩, by rw [htv]⟩
      · simp only [hf, beq_iff_eq, List.countP_eq_zero]
        constructor
        · intro h x hx
          have := h x hx
          simpa using this
        · intro h x hx
          simpa using h x hx
      · rw [← hlen, hc, hf]
        exact countP_add_countP_not (fun x => x.success) rs

/-- Claim C3: `close_position` on an existing position with remaining
volume `R` requests exactly `R` when `volume` is omitted and `min v R`
when `volume = v` is given — never more than is open — and on success
`volume_closed` equals the requested volume. -/
theorem C3_close_position_min_volume (env : MT5Env) (st : HandlerState) (position_id : Nat)
    (close_volume : Option ℚ) (pos : Position) (rest : List Position)
    (r : TradeResult) (tr : List Event)
    (hconn : check_connection env st = true)
    (hpos : positions_get_ticket env position_id = pos :: rest)
    (hok : close_position env st position_id close_volume = Except.ok (r, tr)) :
    ∃ req : OrderRequest, tr = [Event.evOrderSend req] ∧
      (close_volume = none → req.volume = pos.volume) ∧
      (∀ v, close_volume = some v → req.volume = min v pos.volume) ∧
      req.volume ≤ pos.volume ∧
      (r.success = true → r.volume_closed = some req.volume) := by
  simp only [close_position, hconn, Bool.true_eq_false, if_false, hpos] at hok
  rcases htick : env.symbol_info_tick pos.symbol with _ | tick
  · simp only [close_after_lookup, htick] at hok
    exact Except.noConfusion hok
  · simp only [close_after_lookup, htick] at hok
    have hle : (close_request_of position_id pos close_volume tick).volume ≤ pos.volume := by
      cases close_volume with
      | none => exact le_refl _
      | some v => exact min_le_right v pos.volume
    rcases hsend : env.order_send (close_request_of position_id pos close_volume tick)
        with _ | res
    · simp only [hsend, Except.ok.injEq, Prod.mk.injEq] at hok
      obtain ⟨hr, htr⟩ := hok
      refine ⟨close_request_of position_id pos close_volume tick, htr.symm, ?_, ?_, hle, ?_⟩
      · intro h; subst h; rfl
      · intro v h; subst h; rfl
      · intro hsucc; rw [← hr] at hsucc; simp at hsucc
    · simp only [hsend] at hok
      split at hok
      · simp only [Except.ok.injEq, Prod.mk.injEq] at hok
        obtain ⟨hr, htr⟩ := hok
        refine ⟨close_request_of position_id pos close_volume tick, htr.symm, ?_, ?_, hle, ?_⟩
        · intro h; subst h; rfl
        · intro v h; subst h; rfl
        · intro hsucc; rw [← hr] at hsucc; simp at hsucc
      · simp only [Except.ok.injEq, Prod.mk.injEq] at hok
        obtain ⟨hr, htr⟩ := hok
        refine ⟨close_request_of position_id pos close_volume tick, htr.symm, ?_, ?_, hle, ?_⟩
        · intro h; subst h; rfl
        · intro v h; subst h; rfl
        · intro hsucc; rw [← hr]; rfl

theorem close_all_events (env : MT5Env) (st : HandlerState) (suffix : String)
    (symbol : Option String) (close_volume : Option ℚ) (cr : CloseAllResult) (ctr : List Event)
    (h : close_all_positions env st suffix symbol close_volume = Except.ok (cr, ctr)) :
    ∀ e ∈ ctr, isCloseEvent e = true := by
  cases hcc : check_connection env st with
  | false =>
    simp only [close_all_positions, hcc, if_pos, Except.ok.injEq, Prod.mk.injEq] at h
    rw [← h.2]
    simp
  | true =>
    rcases hps : get_positions env st suffix symbol with _ | ⟨p0, ps0⟩
    · simp only [close_all_positions, hcc, Bool.true_eq_false, if_false, hps,
        Except.ok.injEq, Prod.mk.injEq] at h
      rw [← h.2]
      simp
    · obtain ⟨c, f, rs, tv, hcl, hr⟩ :=
        close_all_ok_main env st suffix symbol close_volume cr ctr p0 ps0 hcc hps h
      exact (close_loop_spec env st _ (p0 :: ps0) c f rs tv ctr hcl).2.2.2.2.2

/-- Claim C4: `place_trade` with `close_existing = true` runs the close-all
step and the 500 ms settlement pause strictly before the broker-suffix
resolution and before the new order submission; with
`close_existing = false` neither the close-all step nor the pause occurs. -/
theorem C4_close_and_pause_before_resolve (env : MT5Env) (st : HandlerState)
    (suffix symbol order_type : String) (volume : ℚ) (comment : String)
    (hconn : check_connection env st = true) :
    (∀ cr ctr, close_all_positions env st suffix (some symbol) none = Except.ok (cr, ctr) →
      ∃ r tailTr,
        place_trade env st suffix symbol order_type volume comment true =
          Except.ok (r, Event.evCloseAll (some symbol) ::
            (ctr ++ Event.evSleep 500 ::
              Event.evResolve symbol (resolve_symbol suffix symbol) :: tailTr)) ∧
        (∀ e ∈ ctr, isCloseEvent e = true) ∧
        (∀ e ∈ tailTr, ∃ q, e = Event.evOrderSend q ∧ q.symbol = resolve_symbol suffix symbol)) ∧
    (∀ r tr, place_trade env st suffix symbol order_type volume comment false =
        Except.ok (r, tr) →
      (∀ s, Event.evCloseAll s ∉ tr) ∧ (∀ n, Event.evSleep n ∉ tr)) := by
  constructor
  · intro cr ctr hclose
    exact ⟨_, _,
      place_trade_true_eq env st suffix symbol order_type volume comment cr ctr hconn hclose,
      close_all_events env st suffix (some symbol) none cr ctr hclose,
      place_after_resolve_events env _ order_type volume comment symbol⟩
  · intro r tr hok
    rw [place_trade_false_eq env st suffix symbol order_type volume comment hconn] at hok
    simp only [Except.ok.injEq, Prod.mk.injEq] at hok
    obtain ⟨hr, htr⟩ := hok
    subst htr
    constructor
    · intro s hs
      rcases List.mem_cons.mp hs with hh | hh
      · exact Event.noConfusion hh
      · obtain ⟨q, hq, -⟩ :=
          place_after_resolve_events env _ order_type volume comment symbol _ hh
        exact Event.noConfusion hq
    · intro n hn
      rcases List.mem_cons.mp hn with hh | hh
      · exact Event.noConfusion hh
      · obtain ⟨q, hq, -⟩ :=
          place_after_resolve_events env _ order_type volume comment symbol _ hh
        exact Event.noConfusion hq

/-- Claim C10: the outcome of the preliminary close-all step has no effect
on the rest of `place_trade`: whatever `close_all_positions` returned
(even a failure result), the final result is identical to the one of the
same call with `close_existing = false`, and the two traces differ only by
the close-all prefix and the pause. -/
theorem C10_close_outcome_not_reflected (env : MT5Env) (st : HandlerState)
    (suffix symbol order_type : String) (volume : ℚ) (comment : String)
    (cr : CloseAllResult) (ctr : List Event)
    (hconn : check_connection env st = true)
    (hclose : close_all_positions env st suffix (some symbol) none = Except.ok (cr, ctr)) :
    ∃ r tailTr,
      place_trade env st suffix symbol order_type volume comment true =
        Except.ok (r, Event.evCloseAll (some symbol) ::
          (ctr ++ Event.evSleep 500 ::
            Event.evResolve symbol (resolve_symbol suffix symbol) :: tailTr)) ∧
      place_trade env st suffix symbol order_type volume comment false =
        Except.ok (r, Event.evResolve symbol (resolve_symbol suffix symbol) :: tailTr) :=
  ⟨_, _,
    place_trade_true_eq env st suffix symbol order_type volume comment cr ctr hconn hclose,
    place_trade_false_eq env st suffix symbol order_type volume comment hconn⟩

/-- Claim C7: for a logical symbol lacking the configured (non-empty)
broker suffix, `get_positions` queries the terminal at `symbol ++ suffix`
and strips the suffix from every returned record (keeping the broker name
in `broker_symbol`), and `place_trade` resolves to and submits at
`symbol ++ suffix`. -/
theorem C7_suffix_roundtrip (env : MT5Env) (st : HandlerState) (suffix symbol : String)
    (hconn : check_connection env st = true)
    (hsfx : suffix ≠ "") (hend : py_endswith symbol suffix = false) :
    get_positions env st suffix (some symbol) =
      (env.positions.filter (fun p => p.symbol == symbol ++ suffix)).map
        (to_position_dict suffix) ∧
    (∀ pd ∈ get_positions env st suffix (some symbol),
      pd.symbol = symbol ∧ pd.broker_symbol = some (symbol ++ suffix)) ∧
    (∀ order_type volume comment, ∃ r tailTr,
      place_trade env st suffix symbol order_type volume comment false =
        Except.ok (r, Event.evResolve symbol (symbol ++ suffix) :: tailTr) ∧
      ∀ e ∈ tailTr, ∃ q, e = Event.evOrderSend q ∧ q.symbol = symbol ++ suffix) := by
  have hres : resolve_symbol suffix symbol = symbol ++ suffix := by
    simp [resolve_symbol, hsfx, hend]
  have hget : get_positions env st suffix (some symbol) =
      (env.positions.filter (fun p => p.symbol == symbol ++ suffix)).map
        (to_position_dict suffix) := by
    simp only [get_positions, hconn, Bool.true_eq_false, if_false, hres, positions_get]
  refine ⟨hget, ?_, ?_⟩
  · intro pd hpd
    rw [hget] at hpd
    obtain ⟨p, hpmem, hmap⟩ := List.mem_map.mp hpd
    have hpsym : p.symbol = symbol ++ suffix := by
      have := (List.mem_filter.mp hpmem).2
      simpa using this
    rw [← hmap]
    simp [to_position_dict, hpsym, py_endswith_append, hsfx, py_drop_right_append]
  · intro order_type volume comment
    have h1 := place_trade_false_eq env st suffix symbol order_type volume comment hconn
    have h2 := place_after_resolve_events env (resolve_symbol suffix symbol)
      order_type volume comment symbol
    rw [hres] at h1 h2
    exact ⟨_, _, h1, h2⟩

theorem place_submission_spec (env : MT5Env) (mt5_symbol order_type : String)
    (volume : ℚ) (comment symbol : String) (info : SymbolInfo) (tick : Tick)
    (ot : Nat) (price : ℚ)
    (hinfo : env.symbol_info mt5_symbol = some info)
    (hsel : info.visible = true ∨ env.symbol_select mt5_symbol = true)
    (htick : env.symbol_info_tick mt5_symbol = some tick)
    (hot : order_type_price order_type tick = some (ot, price)) :
    ∃ r, place_after_resolve env mt5_symbol order_type volume comment symbol =
        (r, [Event.evOrderSend (place_request mt5_symbol volume ot price comment)]) ∧
      (r.success = true ↔ ∃ res,
        env.order_send (place_request mt5_symbol volume ot price comment) = some res ∧
        res.retcode = TRADE_RETCODE_DONE) ∧
      (env.order_send (place_request mt5_symbol volume ot price comment) = none →
        r.success = false ∧
        r.message = "Order failed. Error: " ++ toString env.last_error) ∧
      (∀ res, env.order_send (place_request mt5_symbol volume ot price comment) = some res →
        res.retcode ≠ TRADE_RETCODE_DONE →
        r.success = false ∧ r.details = some res ∧
        r.message = "Order failed. Error code: " ++ toString res.retcode) := by
  have hnosel : ¬(info.visible = false ∧ env.symbol_select mt5_symbol = false) := by
    rcases hsel with h | h <;> simp [h]
  rcases hsend : env.order_send (place_request mt5_symbol volume ot price comment)
      with _ | res
  · refine ⟨{ success := false,
              message := "Order failed. Error: " ++ toString env.last_error }, ?_, ?_, ?_, ?_⟩
    · simp only [place_after_resolve, hinfo, if_neg hnosel, htick, hot, hsend]
    · simp [hsend]
    · intro h
      exact ⟨rfl, rfl⟩
    · intro res h
      exact Option.noConfusion h
  · by_cases hrc : res.retcode = TRADE_RETCODE_DONE
    · refine ⟨{ success := true,
                message := "Order executed: " ++ order_type ++ " " ++ symbol,
                details := some res }, ?_, ?_, ?_, ?_⟩
      · simp only [place_after_resolve, hinfo, if_neg hnosel, htick, hot, hsend, hrc,
          ne_eq, not_true_eq_false, if_false]
      · simp only [true_iff]
        exact ⟨res, rfl, hrc⟩
      · intro h
        exact Option.noConfusion h
      · intro res2 h hne
        obtain rfl : res = res2 := by simpa using h
        exact absurd hrc hne
    · refine ⟨{ success := false,
                message := "Order failed. Error code: " ++ toString res.retcode,
                details := some res }, ?_, ?_, ?_, ?_⟩
      · simp only [place_after_resolve, hinfo, if_neg hnosel, htick, hot, hsend, hrc,
          ne_eq, not_false_eq_true, if_true]
      · simp only [Bool.false_eq_true, false_iff]
        rintro ⟨res2, h2, hrc2⟩
        obtain rfl : res2 = res := by simpa using h2.symm
        exact hrc hrc2
      · intro h
        exact Option.noConfusion h
      · intro res2 h hne
        obtain rfl : res = res2 := by simpa using h
        exact ⟨rfl, rfl, rfl⟩

theorem close_submission_spec (env : MT5Env) (st : HandlerState) (position_id : Nat)
    (close_volume : Option ℚ) (pos : Position) (rest : List Position) (tick : Tick)
    (hconn : check_connection env st = true)
    (hpos : positions_get_ticket env position_id = pos :: rest)
    (htick : env.symbol_info_tick pos.symbol = some tick) :
    ∃ r, close_position env st position_id close_volume =
        Except.ok (r, [Event.evOrderSend (close_request_of position_id pos close_volume tick)]) ∧
      (r.success = true ↔ ∃ res,
        env.order_send (close_request_of position_id pos close_volume tick) = some res ∧
        res.retcode = TRADE_RETCODE_DONE) ∧
      (env.order_send (close_request_of position_id pos close_volume tick) = none →
        r.success = false ∧
        r.message = "Close position failed. Error: " ++ toString env.last_error) ∧
      (∀ res, env.order_send (close_request_of position_id pos close_volume tick) = some res →
        res.retcode ≠ TRADE_RETCODE_DONE →
        r.success = false ∧ r.details = some res ∧
        r.message = "Close position failed. Error code: " ++ toString res.retcode) := by
  rcases hsend : env.order_send (close_request_of position_id pos close_volume tick)
      with _ | res
  · refine ⟨{ success := false,
              message := "Close position failed. Error: " ++ toString env.last_error },
      ?_, ?_, ?_, ?_⟩
    · simp only [close_position, hconn, Bool.true_eq_false, if_false, hpos,
        close_after_lookup, htick, hsend]
    · simp [hsend]
    · intro h
      exact ⟨rfl, rfl⟩
    · intro res h
      exact Option.noConfusion h
  · by_cases hrc : res.retcode = TRADE_RETCODE_DONE
    · refine ⟨{ success := true,
                message := "Position " ++ toString position_id ++ " closed (Volume: "
                  ++ toString (volume_to_close_of close_volume pos) ++ ")",
                details := some res,
                volume_closed := some (volume_to_close_of close_volume pos) }, ?_, ?_, ?_, ?_⟩
      · simp only [close_position, hconn, Bool.true_eq_false, if_false, hpos,
          close_after_lookup, htick, hsend, hrc, ne_eq, not_true_eq_false, if_false]
      · simp only [true_iff]
        exact ⟨res, rfl, hrc⟩
      · intro h
        exact Option.noConfusion h
      · intro res2 h hne
        obtain rfl : res = res2 := by simpa using h
        exact absurd hrc hne
    · refine ⟨{ success := false,
                message := "Close position failed. Error code: " ++ toString res.retcode,
                details := some res }, ?_, ?_, ?_, ?_⟩
      · simp only [close_position, hconn, Bool.true_eq_false, if_false, hpos,
          close_after_lookup, htick, hsend, hrc, ne_eq, not_false_eq_true, if_true]
      · simp only [Bool.false_eq_true, false_iff]
        rintro ⟨res2, h2, hrc2⟩
        obtain rfl : res2 = res := by simpa using h2.symm
        exact hrc hrc2
      · intro h
        exact Option.noConfusion h
      · intro res2 h hne
        obtain rfl : res = res2 := by simpa using h
        exact ⟨rfl, rfl, rfl⟩

/-- Claim C8: in both `place_trade` and `close_position`, a null
`order_send` result and a non-success broker retcode are both reported as
failures carrying the broker's error code or detail record, and `success`
is true iff the broker returned `TRADE_RETCODE_DONE`. -/
theorem C8_retcode_mapping (env : MT5Env) (st : HandlerState)
    (suffix symbol order_type : String) (volume : ℚ) (comment : String)
    (info : SymbolInfo) (tick : Tick) (ot : Nat) (price : ℚ)
    (position_id : Nat) (close_volume : Option ℚ) (pos : Position) (rest : List Position)
    (ctick : Tick)
    (hconn : check_connection env st = true)
    (hinfo : env.symbol_info (resolve_symbol suffix symbol) = some info)
    (hsel : info.visible = true ∨ env.symbol_select (resolve_symbol suffix symbol) = true)
    (htick : env.symbol_info_tick (resolve_symbol suffix symbol) = some tick)
    (hot : order_type_price order_type tick = some (ot, price))
    (hpos : positions_get_ticket env position_id = pos :: rest)
    (hctick : env.symbol_info_tick pos.symbol = some ctick) :
    (∃ r, place_trade env st suffix symbol order_type volume comment false =
        Except.ok (r, [Event.evResolve symbol (resolve_symbol suffix symbol),
          Event.evOrderSend
            (place_request (resolve_symbol suffix symbol) volume ot price comment)]) ∧
      (r.success = true ↔ ∃ res,
        env.order_send (place_request (resolve_symbol suffix symbol) volume ot price comment)
          = some res ∧ res.retcode = TRADE_RETCODE_DONE) ∧
      (env.order_send (place_request (resolve_symbol suffix symbol) volume ot price comment)
          = none →
        r.success = false ∧
        r.message = "Order failed. Error: " ++ toString env.last_error) ∧
      (∀ res,
        env.order_send (place_request (resolve_symbol suffix symbol) volume ot price comment)
          = some res →
        res.retcode ≠ TRADE_RETCODE_DONE →
        r.success = false ∧ r.details = some res ∧
        r.message = "Order failed. Error code: " ++ toString res.retcode)) ∧
    (∃ r, close_position env st position_id close_volume =
        Except.ok (r,
          [Event.evOrderSend (close_request_of position_id pos close_volume ctick)]) ∧
      (r.success = true ↔ ∃ res,
        env.order_send (close_request_of position_id pos close_volume ctick) = some res ∧
        res.retcode = TRADE_RETCODE_DONE) ∧
      (env.order_send (close_request_of position_id pos close_volume ctick) = none →
        r.success = false ∧
        r.message = "Close position failed. Error: " ++ toString env.last_error) ∧
      (∀ res, env.order_send (close_request_of position_id pos close_volume ctick) = some res →
        res.retcode ≠ TRADE_RETCODE_DONE →
        r.success = false ∧ r.details = some res ∧
        r.message = "Close position failed. Error code: " ++ toString res.retcode)) := by
  constructor
  · obtain ⟨r, heq, h1, h2, h3⟩ := place_submission_spec env (resolve_symbol suffix symbol)
      order_type volume comment symbol info tick ot price hinfo hsel htick hot
    have hpt := place_trade_false_eq env st suffix symbol order_type volume comment hconn
    simp only [heq] at hpt
    exact ⟨r, hpt, h1, h2, h3⟩
  · exact close_submission_spec env st position_id close_volume pos rest ctick hconn hpos hctick

/-- Claim C9: the request price follows the order side — `place_trade`
submits BUY/LONG at the ask and SELL/SHORT at the bid — and
`close_position` submits the inverse order type of the position priced
symmetrically: bid to close a long, ask to close a short. -/
theorem C9_buy_ask_sell_bid (env : MT5Env) (st : HandlerState)
    (suffix symbol order_type : String) (volume : ℚ) (comment : String)
    (info : SymbolInfo) (tick : Tick)
    (position_id : Nat) (close_volume : Option ℚ) (pos : Position) (rest : List Position)
    (ctick : Tick)
    (hconn : check_connection env st = true)
    (hinfo : env.symbol_info (resolve_symbol suffix symbol) = some info)
    (hsel : info.visible = true ∨ env.symbol_select (resolve_symbol suffix symbol) = true)
    (htick : env.symbol_info_tick (resolve_symbol suffix symbol) = some tick)
    (hpos : positions_get_ticket env position_id = pos :: rest)
    (hctick : env.symbol_info_tick pos.symbol = some ctick) :
    ((py_upper order_type = "BUY" ∨ py_upper order_type = "LONG") →
      order_type_price order_type tick = some (ORDER_TYPE_BUY, tick.ask) ∧
      ∃ r, place_trade env st suffix symbol order_type volume comment false =
        Except.ok (r, [Event.evResolve symbol (resolve_symbol suffix symbol),
          Event.evOrderSend (place_request (resolve_symbol suffix symbol) volume
            ORDER_TYPE_BUY tick.ask comment)])) ∧
    ((py_upper order_type = "SELL" ∨ py_upper order_type = "SHORT") →
      order_type_price order_type tick = some (ORDER_TYPE_SELL, tick.bid) ∧
      ∃ r, place_trade env st suffix symbol order_type volume comment false =
        Except.ok (r, [Event.evResolve symbol (resolve_symbol suffix symbol),
          Event.evOrderSend (place_request (resolve_symbol suffix symbol) volume
            ORDER_TYPE_SELL tick.bid comment)])) ∧
    (∃ r, close_position env st position_id close_volume =
      Except.ok (r,
        [Event.evOrderSend (close_request_of position_id pos close_volume ctick)])) ∧
    (pos.type = ORDER_TYPE_BUY →
      (close_request_of position_id pos close_volume ctick).type = ORDER_TYPE_SELL ∧
      (close_request_of position_id pos close_volume ctick).price = ctick.bid) ∧
    (pos.type = ORDER_TYPE_SELL →
      (close_request_of position_id pos close_volume ctick).type = ORDER_TYPE_BUY ∧
      (close_request_of position_id pos close_volume ctick).price = ctick.ask) := by
  refine ⟨?_, ?_, ?_, ?_, ?_⟩
  · intro h
    have hot : order_type_price order_type tick = some (ORDER_TYPE_BUY, tick.ask) := by
      rcases h with h | h <;> simp [order_type_price, h]
    refine ⟨hot, ?_⟩
    obtain ⟨r, heq, -, -, -⟩ := place_submission_spec env (resolve_symbol suffix symbol)
      order_type volume comment symbol info tick ORDER_TYPE_BUY tick.ask hinfo hsel htick hot
    have hpt := place_trade_false_eq env st suffix symbol order_type volume comment hconn
    simp only [heq] at hpt
    exact ⟨r, hpt⟩
  · intro h
    have hot : order_type_price order_type tick = some (ORDER_TYPE_SELL, tick.bid) := by
      rcases h with h | h <;> simp [order_type_price, h]
    refine ⟨hot, ?_⟩
    obtain ⟨r, heq, -, -, -⟩ := place_submission_spec env (resolve_symbol suffix symbol)
      order_type volume comment symbol info tick ORDER_TYPE_SELL tick.bid hinfo hsel htick hot
    have hpt := place_trade_false_eq env st suffix symbol order_type volume comment hconn
    simp only [heq] at hpt
    exact ⟨r, hpt⟩
  · obtain ⟨r, heq, -, -, -⟩ :=
      close_submission_spec env st position_id close_volume pos rest ctick hconn hpos hctick
    exact ⟨r, heq⟩
  · intro h
    constructor <;>
      simp [close_request_of, close_request, close_type_of, close_price_of, h,
        ORDER_TYPE_BUY, ORDER_TYPE_SELL]
  · intro h
    constructor <;>
      simp [close_request_of, close_request, close_type_of, close_price_of, h,
        ORDER_TYPE_BUY, ORDER_TYPE_SELL]

theorem place_after_resolve_result_shape (env : MT5Env) (mt5_symbol order_type : String)
    (volume : ℚ) (comment symbol : String) :
    ((place_after_resolve env mt5_symbol order_type volume comment symbol).1.success = false →
      (place_after_resolve env mt5_symbol order_type volume comment symbol).1.message ≠ "") ∧
    (place_after_resolve env mt5_symbol order_type volume comment symbol).1.volume_closed
      = none := by
  unfold place_after_resolve
  repeat' split
  all_goals refine ⟨?_, rfl⟩
  all_goals intro hfail
  all_goals first
  | exact str_append_ne_empty _ _ (by decide)
  | exact str_append_ne_empty _ _ (str_append_ne_empty _ _ (by decide))
  | simp at hfail

theorem close_position_failure_shape (env : MT5Env) (st : HandlerState) (position_id : Nat)
    (close_volume : Option ℚ) (r : TradeResult) (tr : List Event)
    (h : close_position env st position_id close_volume = Except.ok (r, tr))
    (hfail : r.success = false) :
    r.message ≠ "" ∧ r.volume_closed = none := by
  unfold close_position close_after_lookup at h
  repeat' split at h
  all_goals first
  | exact Except.noConfusion h
  | (simp only [Except.ok.injEq, Prod.mk.injEq] at h
     obtain ⟨hr, htr⟩ := h
     subst hr
     first
     | exact ⟨by decide, rfl⟩
     | exact ⟨str_append_ne_empty _ _ (by decide), rfl⟩
     | exact ⟨str_append_ne_empty _ _ (str_append_ne_empty _ _ (by decide)), rfl⟩
     | exact absurd hfail (by simp))

theorem place_trade_failure_shape (env : MT5Env) (st : HandlerState)
    (suffix symbol order_type : String) (volume : ℚ) (comment : String)
    (close_existing : Bool) (r : TradeResult) (tr : List Event)
    (h : place_trade env st suffix symbol order_type volume comment close_existing
      = Except.ok (r, tr))
    (hfail : r.success = false) :
    r.message ≠ "" ∧ r.volume_closed = none := by
  unfold place_trade at h
  repeat' split at h
  all_goals first
  | exact Except.noConfusion h
  | (simp only [Except.ok.injEq, Prod.mk.injEq] at h
     obtain ⟨hr, htr⟩ := h
     subst hr
     first
     | exact ⟨by decide, rfl⟩
     | exact ⟨(place_after_resolve_result_shape env _ order_type volume comment symbol).1 hfail,
         (place_after_resolve_result_shape env _ order_type volume comment symbol).2⟩)

theorem close_all_failure_message (env : MT5Env) (st : HandlerState) (suffix : String)
    (symbol : Option String) (close_volume : Option ℚ) (r : CloseAllResult) (tr : List Event)
    (h : close_all_positions env st suffix symbol close_volume = Except.ok (r, tr))
    (hfail : r.success = false) :
    r.message ≠ "" := by
  cases hcc : check_connection env st with
  | false =>
    simp only [close_all_positions, hcc, if_pos, Except.ok.injEq, Prod.mk.injEq] at h
    obtain ⟨hr, -⟩ := h
    subst hr
    exact (by decide)
  | true =>
    rcases hps : get_positions env st suffix symbol with _ | ⟨p0, ps0⟩
    · simp only [close_all_positions, hcc, Bool.true_eq_false, if_false, hps,
        Except.ok.injEq, Prod.mk.injEq] at h
      obtain ⟨hr, -⟩ := h
      subst hr
      exact absurd hfail (by simp)
    · obtain ⟨c, f, rs, tv, hcl, hr⟩ :=
        close_all_ok_main env st suffix symbol close_volume r tr p0 ps0 hcc hps h
      subst hr
      exact str_append_ne_empty _ _ (str_append_ne_empty _ _ (str_append_ne_empty _ _
        (str_append_ne_empty _ _ (by decide))))

/-- Claim C5 is false as stated: a partial failure of
`close_all_positions` returns `success = false` while still populating the
partial-success fields (`closed_count`, `failed_count`,
`total_volume_closed`).  Concretely, with two open 1-lot positions where
the first close fills and the second is rejected, the result has
`success = false` with a non-empty message and `closed_count = 1`,
`failed_count = 1` populated. -/
theorem C5_counterexample :
    ((close_all_positions envPartial st0 no_suffix none none).toOption.map
      (fun p => (p.1.success, p.1.closed_count, p.1.failed_count,
        p.1.total_volume_closed.isSome, decide (p.1.message = "")))) =
    some (false, some 1, some 1, true, false) := by decide

/-- Claim C5 (amended): a failure result always carries a non-empty
`message`; `place_trade` and `close_position` failure results populate no
partial-success fields (`volume_closed` absent); but `close_all_positions`
failure results do populate `closed_count`, `failed_count` and
`total_volume_closed` with the partial progress. -/
theorem C5_failure_results_shape :
    (∀ env st position_id close_volume r tr,
      close_position env st position_id close_volume = Except.ok (r, tr) →
      r.success = false → r.message ≠ "" ∧ r.volume_closed = none) ∧
    (∀ env st suffix symbol order_type volume comment close_existing r tr,
      place_trade env st suffix symbol order_type volume comment close_existing
        = Except.ok (r, tr) →
      r.success = false → r.message ≠ "" ∧ r.volume_closed = none) ∧
    (∀ env st suffix symbol close_volume r tr,
      close_all_positions env st suffix symbol close_volume = Except.ok (r, tr) →
      r.success = false → r.message ≠ "") :=
  ⟨fun env st position_id close_volume r tr h hfail =>
      close_position_failure_shape env st position_id close_volume r tr h hfail,
   fun env st suffix symbol order_type volume comment close_existing r tr h hfail =>
      place_trade_failure_shape env st suffix symbol order_type volume comment
        close_existing r tr h hfail,
   fun env st suffix symbol close_volume r tr h hfail =>
      close_all_failure_message env st suffix symbol close_volume r tr h hfail⟩

/-- Claim C6 is right about the intent but the code violates it:
`close_position` dereferences `mt5.symbol_info_tick(position_symbol)` with
no `None` check (line 387), so with an open position whose symbol has no
market data an `AttributeError` escapes `close_position` — and propagates
through `close_all_positions` — instead of a structured failure result.
The diagnostic probe `_check_data_columns` does downgrade its faults. -/
theorem C6_missing_market_data_raises :
    (∃ e, close_position envNoTick st0 7 none = Except.error e) ∧
    (∃ e, close_all_positions envNoTick st0 no_suffix (some symEUR) none = Except.error e) ∧
    check_data_columns (Except.error (PyErr.attributeError attr_err_msg)) = none :=
  ⟨⟨_, rfl⟩, ⟨_, rfl⟩, rfl⟩

/-- C1 instantiated at a concrete healthy terminal with two positions. -/
theorem C1_witness :
    1 < (get_positions envW st0 no_suffix none).length ∧
    ∃ r tr, close_all_positions envW st0 no_suffix none (some 1) = Except.ok (r, tr) ∧
      ((closeCalls tr).map (fun call => call.2.getD 0)).sum = 1 := by
  refine ⟨by decide, _, _, rfl, ?_⟩
  exact (C1_close_volume_equal_split envW st0 no_suffix none 1 _ _ rfl (by decide)).2.2.2

/-- C2 instantiated at a terminal where one close succeeds and one fails. -/
theorem C2_witness :
    get_positions envPartial st0 no_suffix none ≠ [] ∧
    ∃ r tr results,
      close_all_positions envPartial st0 no_suffix none none = Except.ok (r, tr) ∧
      r.details = some results ∧
      results.length = (get_positions envPartial st0 no_suffix none).length := by
  refine ⟨by decide, ?_⟩
  obtain ⟨results, h1, h2, -, -, -⟩ :=
    C2_close_all_aggregates envPartial st0 no_suffix none none _ _ rfl (by decide)
  exact ⟨_, _, results, rfl, h1, h2⟩

/-- C3 instantiated: a 1-lot position closed with a requested 2 lots. -/
theorem C3_witness :
    check_connection envW st0 = true ∧
    positions_get_ticket envW 1 =
      [{ ticket := 1, symbol := symEUR, type := ORDER_TYPE_BUY, volume := 1 }] ∧
    ∃ r tr req, close_position envW st0 1 (some 2) = Except.ok (r, tr) ∧
      tr = [Event.evOrderSend req] ∧ req.volume ≤ (1 : ℚ) := by
  refine ⟨rfl, by decide, ?_⟩
  obtain ⟨req, htr, -, -, h4, -⟩ :=
    C3_close_position_min_volume envW st0 1 (some 2)
      { ticket := 1, symbol := symEUR, type := ORDER_TYPE_BUY, volume := 1 } [] _ _
      rfl (by decide) rfl
  exact ⟨_, _, req, rfl, htr, h4⟩

/-- C4 instantiated at a concrete healthy terminal. -/
theorem C4_witness :
    check_connection envW st0 = true ∧
    ∃ cr ctr r tailTr,
      close_all_positions envW st0 sfxR (some symEUR) none = Except.ok (cr, ctr) ∧
      place_trade envW st0 sfxR symEUR sBUY 1 sBUY true =
        Except.ok (r, Event.evCloseAll (some symEUR) ::
          (ctr ++ Event.evSleep 500 ::
            Event.evResolve symEUR (resolve_symbol sfxR symEUR) :: tailTr)) := by
  refine ⟨rfl, ?_⟩
  obtain ⟨h1, -⟩ := C4_close_and_pause_before_resolve envW st0 sfxR symEUR sBUY 1 sBUY rfl
  obtain ⟨r, tailTr, heq, -, -⟩ := h1 _ _ rfl
  exact ⟨_, _, r, tailTr, rfl, heq⟩

/-- C5 (amended) instantiated: a failed close carries a message and no
partial-success fields. -/
theorem C5_failure_witness :
    ∃ r tr, close_position envW st0 99 none = Except.ok (r, tr) ∧
      r.success = false ∧ r.message ≠ "" ∧ r.volume_closed = none := by
  obtain ⟨h1, h2⟩ := C5_failure_results_shape.1 envW st0 99 none _ _ rfl rfl
  exact ⟨_, _, rfl, rfl, h1, h2⟩

/-- C7 instantiated: suffix `.r`, logical symbol `EURUSD`. -/
theorem C7_witness :
    (sfxR ≠ "" ∧ py_endswith symEUR sfxR = false ∧ check_connection envW st0 = true) ∧
    get_positions envW st0 sfxR (some symEUR) =
      (envW.positions.filter (fun p => p.symbol == symEUR ++ sfxR)).map
        (to_position_dict sfxR) := by
  refine ⟨⟨by decide, by decide, rfl⟩, ?_⟩
  exact (C7_suffix_roundtrip envW st0 sfxR symEUR rfl (by decide) (by decide)).1

/-- C8 instantiated: a filled BUY order at the concrete terminal. -/
theorem C8_witness :
    check_connection envW st0 = true ∧
    ∃ r, place_trade envW st0 sfxR symEUR sBUY 1 sBUY false =
      Except.ok (r, [Event.evResolve symEUR (resolve_symbol sfxR symEUR),
        Event.evOrderSend
          (place_request (resolve_symbol sfxR symEUR) 1 ORDER_TYPE_BUY 3 sBUY)]) ∧
      r.success = true := by
  refine ⟨rfl, ?_⟩
  obtain ⟨⟨r, heq, hiff, -, -⟩, -⟩ :=
    C8_retcode_mapping envW st0 sfxR symEUR sBUY 1 sBUY { visible := true }
      { bid := 2, ask := 3 } ORDER_TYPE_BUY 3 1 none
      { ticket := 1, symbol := symEUR, type := ORDER_TYPE_BUY, volume := 1 } []
      { bid := 2, ask := 3 }
      rfl rfl (Or.inl rfl) rfl (by decide) (by decide) rfl
  exact ⟨r, heq, hiff.mpr ⟨{ retcode := TRADE_RETCODE_DONE }, rfl, rfl⟩⟩

/-- C9 instantiated: BUY submits at the ask. -/
theorem C9_witness :
    check_connection envW st0 = true ∧
    (py_upper sBUY = "BUY" ∨ py_upper sBUY = "LONG") ∧
    ∃ r, place_trade envW st0 sfxR symEUR sBUY 1 sBUY false =
      Except.ok (r, [Event.evResolve symEUR (resolve_symbol sfxR symEUR),
        Event.evOrderSend (place_request (resolve_symbol sfxR symEUR) 1 ORDER_TYPE_BUY
          (3 : ℚ) sBUY)]) := by
  refine ⟨rfl, Or.inl (by decide), ?_⟩
  obtain ⟨h1, -, -, -, -⟩ := C9_buy_ask_sell_bid envW st0 sfxR symEUR sBUY 1 sBUY
    { visible := true } { bid := 2, ask := 3 } 1 none
    { ticket := 1, symbol := symEUR, type := ORDER_TYPE_BUY, volume := 1 } []
    { bid := 2, ask := 3 } rfl rfl (Or.inl rfl) rfl (by decide) rfl
  obtain ⟨-, r, heq⟩ := h1 (Or.inl (by decide))
  exact ⟨r, heq⟩

/-- C10 instantiated at the concrete healthy terminal. -/
theorem C10_witness :
    check_connection envW st0 = true ∧
    ∃ cr ctr r tailTr,
      close_all_positions envW st0 sfxR (some symEUR) none = Except.ok (cr, ctr) ∧
      place_trade envW st0 sfxR symEUR sBUY 1 sBUY true =
        Except.ok (r, Event.evCloseAll (some symEUR) ::
          (ctr ++ Event.evSleep 500 ::
            Event.evResolve symEUR (resolve_symbol sfxR symEUR) :: tailTr)) ∧
      place_trade envW st0 sfxR symEUR sBUY 1 sBUY false =
        Except.ok (r, Event.evResolve symEUR (resolve_symbol sfxR symEUR) :: tailTr) := by
  refine ⟨rfl, ?_⟩
  obtain ⟨r, tailTr, h1, h2⟩ :=
    C10_close_outcome_not_reflected envW st0 sfxR symEUR sBUY 1 sBUY _ _ rfl rfl
  exact ⟨_, _, r, tailTr, rfl, h1, h2⟩

end MT5Spec

